import Mathlib

/-!
Verification of the TruthBot analysis pipeline
(`backend/app/services/analyzer_service.py`, `search_service.py`,
`gemini_service.py`, `models.py`) against its specification.

Text is modelled as `List Char` (Python `str`); confidences as `ℚ`.
-/

/-- Python whitespace test used by `str.strip()` (ASCII range). -/
def pyIsSpace (c : Char) : Bool :=
  c = ' ' || c = '\t' || c = '\n' || c = '\r' || c = '\x0b' || c = '\x0c'

/-- Python `str.strip()`: remove leading and trailing whitespace. -/
def pyStrip (l : List Char) : List Char :=
  ((l.dropWhile pyIsSpace).reverse.dropWhile pyIsSpace).reverse

/-- Python `str.lower()` (ASCII range, which covers every trigger phrase). -/
def pyLower (l : List Char) : List Char :=
  l.map Char.toLower

/-- Auxiliary for `containsSub`: does `needle` occur at the head of `hay`? -/
def prefixAt : List Char → List Char → Bool
  | [], _ => true
  | _ :: _, [] => false
  | a :: as, b :: bs => a = b && prefixAt as bs

/-- Python's substring test `needle in hay`. -/
def containsSub (needle : List Char) : List Char → Bool
  | [] => needle.isEmpty
  | b :: bs => prefixAt needle (b :: bs) || containsSub needle bs

/-- Python `analysis.split('\n')`: split on newline, keeping empty pieces. -/
def splitLines : List Char → List (List Char)
  | [] => [[]]
  | c :: rest =>
    if c = '\n' then [] :: splitLines rest
    else
      match splitLines rest with
      | [] => [[c]]
      | l :: ls => (c :: l) :: ls

/-- Python `line.startswith(c)` for a single character. -/
def startsWithChar (c : Char) : List Char → Bool
  | [] => false
  | b :: _ => b = c

/-- `any(phrase in text for phrase in phrases)` over a fixed phrase list. -/
def containsAny (text : List Char) (phrases : List String) : Bool :=
  phrases.any fun p => containsSub p.data text

/-- Tier 1 of `_extract_reliability`: speculative / unverifiable indicators. -/
def speculative_phrases : List String :=
  ["speculative", "speculation", "cannot be verified", "unverifiable",
   "no credible evidence", "lacks any factual basis", "unfounded",
   "no evidence", "lacks evidence", "not based on facts",
   "potentially defamatory", "defamatory", "rumor", "rumors",
   "innuendo", "malicious", "cannot be verified because",
   "dismissing it as", "unfounded speculation"]

/-- Tier 2 of `_extract_reliability`: potentially-false indicators. -/
def potentially_false_phrases : List String :=
  ["potentially false", "is false", "appears false", "likely false",
   "misinformation", "disinformation", "fake", "hoax", "fabricated",
   "not true", "untrue", "debunked", "false claim", "conspiracy"]

/-- Tier 3 of `_extract_reliability`: unreliable indicators. -/
def unreliable_phrases : List String :=
  ["unreliable", "not reliable", "cannot be trusted", "untrustworthy",
   "no credible sources", "spread rumors"]

/-- Tier 4 of `_extract_reliability`: doubtful indicators. -/
def doubtful_phrases : List String :=
  ["doubtful", "questionable", "suspicious", "misleading",
   "partially true", "mixed", "some truth", "lacks credibility",
   "political bias", "personal animosity", "damage reputation"]

/-- Tier 5 of `_extract_reliability`: reliable indicators. -/
def reliable_phrases : List String :=
  ["is reliable", "appears reliable", "highly reliable",
   "is accurate", "appears accurate", "is credible",
   "is true", "this is true", "factually correct",
   "well-established fact", "universally accepted", "universally recognized",
   "definitive answer", "confirmed fact", "verified fact",
   "no factual errors", "there are no factual errors",
   "inherently verifiable", "established scientific",
   "fundamental aspect", "basic fact", "scientifically accurate",
   "common knowledge", "widely accepted"]

/-- Tier 6 of `_extract_reliability`: needs-verification indicators. -/
def needs_verification_phrases : List String :=
  ["needs verification", "requires verification", "unverified claim",
   "insufficient evidence", "unclear", "need more context"]

/-- `AnalyzerService._extract_reliability`: priority-ordered phrase cascade
over the lowercased narrative; first tier with a substring match wins. -/
def extract_reliability (analysis : List Char) : String × ℚ :=
  let analysis_lower := pyLower analysis
  if containsAny analysis_lower speculative_phrases then
    ("needs_verification", 0.70)
  else if containsAny analysis_lower potentially_false_phrases then
    ("potentially_false", 0.85)
  else if containsAny analysis_lower unreliable_phrases then
    ("potentially_false", 0.75)
  else if containsAny analysis_lower doubtful_phrases then
    ("doubtful", 0.65)
  else if containsAny analysis_lower reliable_phrases then
    ("reliable", 0.85)
  else if containsAny analysis_lower needs_verification_phrases then
    ("needs_verification", 0.55)
  else
    ("needs_verification", 0.50)

/-- The five `ReliabilityLabel` enumeration values from `models.py`. -/
def reliability_labels : List String :=
  ["reliable", "doubtful", "needs_verification", "potentially_false", "unknown"]

theorem extract_reliability_cases (a : List Char) :
    extract_reliability a ∈
      ([("needs_verification", (0.70 : ℚ)), ("potentially_false", 0.85),
        ("potentially_false", 0.75), ("doubtful", 0.65), ("reliable", 0.85),
        ("needs_verification", 0.55), ("needs_verification", 0.50)] :
        List (String × ℚ)) := by
  unfold extract_reliability
  dsimp only
  split_ifs <;> simp

/-- Section-header trigger vocabulary of `_extract_reasons`. -/
def reason_keywords : List String :=
  ["reason", "finding", "issue", "concern", "red flag", "key claim"]

/-- Section-header trigger vocabulary of `_extract_tips`. -/
def tip_keywords : List String :=
  ["recommendation", "tip", "suggestion", "verification"]

/-- `any(keyword in line.lower() for keyword in keywords)`. -/
def isHeaderLine (line : List Char) (keywords : List String) : Bool :=
  keywords.any fun k => containsSub k.data (pyLower line)

/-- Character class of the bullet-stripping regex `[-•*\d.]`. -/
def bulletClassChar (c : Char) : Bool :=
  c = '-' || c = '•' || c = '*' || c.isDigit || c = '.'

/-- `re.match(r'^\d+\.', line)`: one or more digits followed by a dot. -/
def startsNumDot (line : List Char) : Bool :=
  !(line.takeWhile Char.isDigit).isEmpty &&
    (match line.dropWhile Char.isDigit with | '.' :: _ => true | _ => false)

/-- The bullet test of the scanners: starts with `-`, `•`, `*`, or `N.`. -/
def isBulletLine (line : List Char) : Bool :=
  startsWithChar '-' line || startsWithChar '•' line || startsWithChar '*' line ||
    startsNumDot line

/-- `re.sub(r'^[-•*\d.]+\s*', '', line)`: remove the leading run of bullet
characters (when there is one) and the whitespace following it. -/
def subBulletPrefix (line : List Char) : List Char :=
  if (line.takeWhile bulletClassChar).isEmpty then line
  else (line.dropWhile bulletClassChar).dropWhile pyIsSpace

/-- One iteration of the `_extract_reasons` loop body on a raw line, given the
current `in_reasons_section` flag and collected reasons; returns the new flag,
the new reasons, and whether the loop executed `break`. -/
def reasonsLineStep (in_section : Bool) (reasons : List (List Char))
    (raw : List Char) : Bool × List (List Char) × Bool :=
  let line := pyStrip raw
  if line.isEmpty then (in_section, reasons, false)
  else if isHeaderLine line reason_keywords then (true, reasons, false)
  else
    let captured :=
      if in_section && isBulletLine line then
        let reason := pyStrip (subBulletPrefix line)
        if !reason.isEmpty && reason.length > 10 then
          (reasons ++ [reason], decide (5 ≤ reasons.length + 1))
        else (reasons, false)
      else (reasons, false)
    if captured.2 then (in_section, captured.1, true)
    else if in_section && line.contains ':' && !startsWithChar '-' line then
      (false, captured.1, false)
    else (in_section, captured.1, false)

/-- The `for line in lines` loop of `_extract_reasons`. -/
def reasonsLoop : List (List Char) → Bool → List (List Char) → List (List Char)
  | [], _, reasons => reasons
  | raw :: rest, in_section, reasons =>
    let step := reasonsLineStep in_section reasons raw
    if step.2.2 then step.2.1 else reasonsLoop rest step.1 step.2.1

/-- `AnalyzerService._extract_reasons`. -/
def extract_reasons (analysis : List Char) : List (List Char) :=
  (reasonsLoop (splitLines analysis) false []).take 5

/-- One iteration of the `_extract_tips` loop body (no section-close rule). -/
def tipsLineStep (in_section : Bool) (tips : List (List Char))
    (raw : List Char) : Bool × List (List Char) × Bool :=
  let line := pyStrip raw
  if line.isEmpty then (in_section, tips, false)
  else if isHeaderLine line tip_keywords then (true, tips, false)
  else if in_section && isBulletLine line then
    let tip := pyStrip (subBulletPrefix line)
    if !tip.isEmpty && tip.length > 10 then
      (in_section, tips ++ [tip], decide (4 ≤ tips.length + 1))
    else (in_section, tips, false)
  else (in_section, tips, false)

/-- The `for line in lines` loop of `_extract_tips`. -/
def tipsLoop : List (List Char) → Bool → List (List Char) → List (List Char)
  | [], _, tips => tips
  | raw :: rest, in_section, tips =>
    let step := tipsLineStep in_section tips raw
    if step.2.2 then step.2.1 else tipsLoop rest step.1 step.2.1

/-- The fixed default tips substituted inside `_extract_tips`. -/
def default_tips : List String :=
  ["Verify claims through multiple reputable sources",
   "Check the original source and publication date",
   "Look for expert opinions and fact-checker assessments",
   "Consider the context and potential biases"]

/-- `AnalyzerService._extract_tips`. -/
def extract_tips (analysis : List Char) : List (List Char) :=
  let tips := tipsLoop (splitLines analysis) false []
  let tips := if tips.isEmpty then default_tips.map String.data else tips
  tips.take 4

/-- The fixed default reasons substituted inside `_parse_analysis`. -/
def default_reasons : List String :=
  ["Analysis completed. See details below."]

/-- The fixed default tips of `_parse_analysis` (distinct from the
`_extract_tips` defaults; unreachable in practice, kept for fidelity). -/
def parse_default_tips : List String :=
  ["Cross-reference with reputable news sources",
   "Check the date and context of the information",
   "Look for primary sources and official statements"]

/-- The `AnalysisResult` model of `models.py`. -/
structure AnalysisResult where
  label : String
  confidence : ℚ
  content_preview : List Char
  reasons : List (List Char)
  tips : List (List Char)
  analysis_details : List Char
deriving DecidableEq

/-- The separator and header prepended to the evidence block. -/
def web_sources_header : List Char := "\n\n---\n📡 WEB VERIFICATION SOURCES:\n".data

/-- `AnalyzerService._parse_analysis`. -/
def parse_analysis (content analysis search_context : List Char) : AnalysisResult :=
  let lc := extract_reliability analysis
  let reasons := extract_reasons analysis
  let tips := extract_tips analysis
  let full_analysis :=
    if !search_context.isEmpty then analysis ++ web_sources_header ++ search_context
    else analysis
  { label := lc.1
    confidence := lc.2
    content_preview :=
      if content.length > 300 then content.take 300 ++ "...".data else content
    reasons := if !reasons.isEmpty then reasons else default_reasons.map String.data
    tips := if !tips.isEmpty then tips else parse_default_tips.map String.data
    analysis_details := full_analysis }


/-- A search result dictionary as built by `SearchService._parse_results`. -/
structure SearchItem where
  title : List Char
  link : List Char
  snippet : List Char
  source : List Char
  is_knowledge_graph : Bool := false
  is_answer_box : Bool := false
deriving DecidableEq

/-- An entry of the `organic` array of a Serper payload (missing keys are
modelled as the empty string, matching `item.get(key, "")`). -/
structure OrganicItem where
  title : List Char
  link : List Char
  snippet : List Char
deriving DecidableEq

/-- A non-empty `knowledgeGraph` object of a Serper payload. -/
structure KnowledgeGraphBox where
  title : List Char
  website : List Char
  description : List Char
deriving DecidableEq

/-- A non-empty `answerBox` object of a Serper payload; `title`, `snippet`
and `answer` may be absent (`.get` defaults apply). -/
structure AnswerBox where
  title : Option (List Char)
  link : List Char
  snippet : Option (List Char)
  answer : Option (List Char)
deriving DecidableEq

/-- The JSON payload of a successful Serper response, as consulted by
`_parse_results`: `.get("organic", [])`, `.get("knowledgeGraph", {})`,
`.get("answerBox", {})` (empty dict modelled as `none`). -/
structure SerperData where
  organic : List OrganicItem
  knowledgeGraph : Option KnowledgeGraphBox
  answerBox : Option AnswerBox
deriving DecidableEq

/-- Models `urllib.parse.urlparse(url).netloc` for absolute URLs of the form
`scheme://netloc/...` (the part between the first `//` and the following
`/`, `?` or `#`; empty when the URL has no `//`). -/
def urlparseNetloc : List Char → List Char
  | [] => []
  | '/' :: '/' :: rest => rest.takeWhile fun c => !(c = '/' || c = '?' || c = '#')
  | _ :: rest => urlparseNetloc rest

/-- `SearchService._extract_domain`: netloc with a `www.` prefix removed. -/
def extract_domain (url : List Char) : List Char :=
  let domain := urlparseNetloc url
  if prefixAt "www.".data domain then domain.drop 4 else domain

/-- The dictionary built for one organic result in `_parse_results`. -/
def mkOrganicResult (i : OrganicItem) : SearchItem :=
  { title := i.title, link := i.link, snippet := i.snippet,
    source := extract_domain i.link }

/-- The synthesized knowledge-graph result of `_parse_results`. -/
def mkKnowledgeGraphResult (kg : KnowledgeGraphBox) : SearchItem :=
  { title := kg.title, link := kg.website, snippet := kg.description,
    source := "Knowledge Graph".data, is_knowledge_graph := true }

/-- The synthesized answer-box result of `_parse_results`. -/
def mkAnswerBoxResult (ab : AnswerBox) : SearchItem :=
  { title := ab.title.getD "Direct Answer".data, link := ab.link,
    snippet := ab.snippet.getD (ab.answer.getD []),
    source := "Google Answer".data, is_answer_box := true }

/-- `SearchService._parse_results`: up to five organic results, then
`insert(0, knowledge-graph)`, then `insert(0, answer-box)`. -/
def parse_results (d : SerperData) : List SearchItem :=
  let results := (d.organic.take 5).map mkOrganicResult
  let results :=
    match d.knowledgeGraph with
    | some kg => mkKnowledgeGraphResult kg :: results
    | none => results
  match d.answerBox with
  | some ab => mkAnswerBoxResult ab :: results
  | none => results

/-- Outcome of one HTTP call to the search provider: a response with a
status code and payload, or a raised transport exception. -/
inductive ProviderOutcome where
  | response (status : Nat) (data : SerperData)
  | exception
deriving DecidableEq

/-- `SearchService.search`: empty result without a provider call when no API
key is configured; otherwise parse a 200 response and swallow every other
status and every exception into an empty result. -/
def search (api_key : String) (outcome : ProviderOutcome) : List SearchItem :=
  if api_key = "" then []
  else
    match outcome with
    | .response status data => if status = 200 then parse_results data else []
    | .exception => []

/-- The fact-check source allow-list of `verify_claim`. -/
def fact_check_domains : List String :=
  ["snopes", "politifact", "factcheck.org",
   "reuters", "ap news", "bbc", "wikipedia"]

/-- The routing test of `verify_claim`:
`any(fc in source for fc in [...])` on the lowercased source. -/
def isFactCheckSource (r : SearchItem) : Bool :=
  containsAny (pyLower r.source) fact_check_domains

/-- The `Dict` returned by `verify_claim`. -/
structure Evidence where
  fact_check_sources : List SearchItem
  other_sources : List SearchItem
  total_results : Nat
deriving DecidableEq

/-- The inner `for result in results` routing loop of `verify_claim`,
appending to the `(fact_check_results, all_results)` accumulators. -/
def routeResults (acc : List SearchItem × List SearchItem)
    (results : List SearchItem) : List SearchItem × List SearchItem :=
  results.foldl
    (fun acc r =>
      if isFactCheckSource r then (acc.1 ++ [r], acc.2)
      else (acc.1, acc.2 ++ [r]))
    acc

/-- The query list built by `verify_claim` from the claim. -/
def verifyQueries (claim : List Char) : List (List Char) :=
  [('"' :: claim) ++ "\" fact check".data,
   claim ++ " true or false".data,
   claim]

/-- The two routed buckets of `verify_claim` before the final caps: the
provider's behaviour is modelled as a function from query to outcome. -/
def verifyBuckets (api_key : String) (provider : List Char → ProviderOutcome)
    (claim : List Char) : List SearchItem × List SearchItem :=
  ((verifyQueries claim).take 2).foldl
    (fun acc q => routeResults acc (search api_key (provider q)))
    ([], [])

/-- `SearchService.verify_claim`: route the results of the first two queries,
cap at 3 fact-check and 5 other sources, and report the pre-cap total. -/
def verify_claim (api_key : String) (provider : List Char → ProviderOutcome)
    (claim : List Char) : Evidence :=
  let buckets := verifyBuckets api_key provider claim
  { fact_check_sources := buckets.1.take 3,
    other_sources := buckets.2.take 5,
    total_results := buckets.1.length + buckets.2.length }

/-- `SearchService.format_sources_for_analysis`. -/
def format_sources_for_analysis (e : Evidence) : List Char :=
  let lines : List (List Char) :=
    (if !e.fact_check_sources.isEmpty then
      "\n## Fact-Check Sources Found:".data ::
        e.fact_check_sources.map
          (fun r => "- **".data ++ r.source ++ "**: ".data ++ r.snippet.take 200)
    else []) ++
    (if !e.other_sources.isEmpty then
      "\n## Related Web Sources:".data ::
        (e.other_sources.take 3).map
          (fun r => "- **".data ++ r.source ++ "**: ".data ++ r.snippet.take 150)
    else [])
  if !lines.isEmpty then List.intercalate "\n".data lines else []

/-- Outcome of one generative-AI call: the returned narrative, or a raised
transport exception with its message. -/
inductive GeminiOutcome where
  | text (narrative : List Char)
  | failure (err : List Char)
deriving DecidableEq

/-- `GeminiService.analyze_text_with_sources`: the model's narrative, or the
fixed fallback narrative when the call raises. -/
def analyze_text_with_sources (outcome : GeminiOutcome) : List Char :=
  match outcome with
  | .text t => t
  | .failure e =>
    "Analysis could not be completed: ".data ++ e ++
      ". Please verify the content manually through trusted sources.".data

/-- `GeminiService.analyze_image`: the vision model's narrative, or the fixed
image fallback narrative when the call raises. -/
def analyze_image_gemini (outcome : GeminiOutcome) : List Char :=
  match outcome with
  | .text t => t
  | .failure e =>
    "Image analysis could not be completed: ".data ++ e ++
      ". Please verify the image manually.".data

/-- `AnalyzerService.analyze_text`: optional web verification (enabled when a
search credential is configured), the AI call with fallback, then
`_parse_analysis`. -/
def analyze_text (api_key : String) (provider : List Char → ProviderOutcome)
    (gemini : GeminiOutcome) (content : List Char) : AnalysisResult :=
  let search_context :=
    if api_key ≠ "" then
      format_sources_for_analysis (verify_claim api_key provider (content.take 200))
    else []
  parse_analysis content (analyze_text_with_sources gemini) search_context

theorem parse_analysis_label (c a s : List Char) :
    (parse_analysis c a s).label = (extract_reliability a).1 := rfl

theorem parse_analysis_confidence (c a s : List Char) :
    (parse_analysis c a s).confidence = (extract_reliability a).2 := rfl

theorem parse_analysis_reasons (c a s : List Char) :
    (parse_analysis c a s).reasons =
      if !(extract_reasons a).isEmpty then extract_reasons a
      else default_reasons.map String.data := rfl

theorem parse_analysis_tips (c a s : List Char) :
    (parse_analysis c a s).tips =
      if !(extract_tips a).isEmpty then extract_tips a
      else parse_default_tips.map String.data := rfl

theorem parse_analysis_preview (c a s : List Char) :
    (parse_analysis c a s).content_preview =
      if c.length > 300 then c.take 300 ++ "...".data else c := rfl

theorem extract_reasons_length (a : List Char) :
    (extract_reasons a).length ≤ 5 := by
  unfold extract_reasons
  rw [List.length_take]
  omega

theorem extract_tips_length (a : List Char) :
    (extract_tips a).length ≤ 4 := by
  unfold extract_tips
  rw [List.length_take]
  omega

theorem extract_tips_ne_nil (a : List Char) :
    extract_tips a ≠ [] := by
  unfold extract_tips
  intro h
  rw [List.take_eq_nil_iff] at h
  rcases h with h | h
  · exact absurd h (by decide)
  · revert h
    split
    · simp [default_tips]
    · intro h
      simp_all

theorem routeResults_nil (acc : List SearchItem × List SearchItem) :
    routeResults acc [] = acc := rfl

theorem routeResults_cons (acc : List SearchItem × List SearchItem)
    (r : SearchItem) (rs : List SearchItem) :
    routeResults acc (r :: rs) =
      routeResults
        (if isFactCheckSource r then (acc.1 ++ [r], acc.2) else (acc.1, acc.2 ++ [r]))
        rs := rfl

theorem routeResults_fst (results : List SearchItem)
    (acc : List SearchItem × List SearchItem) :
    (routeResults acc results).1 = acc.1 ++ results.filter isFactCheckSource := by
  induction results generalizing acc with
  | nil => simp [routeResults_nil]
  | cons r rs ih =>
    rw [routeResults_cons]
    cases h : isFactCheckSource r with
    | false => simp [h, ih, List.filter_cons]
    | true => simp [h, ih, List.filter_cons]

theorem routeResults_snd (results : List SearchItem)
    (acc : List SearchItem × List SearchItem) :
    (routeResults acc results).2 =
      acc.2 ++ results.filter fun r => !isFactCheckSource r := by
  induction results generalizing acc with
  | nil => simp [routeResults_nil]
  | cons r rs ih =>
    rw [routeResults_cons]
    cases h : isFactCheckSource r with
    | false => simp [h, ih, List.filter_cons]
    | true => simp [h, ih, List.filter_cons]

theorem verifyBuckets_fst (api : String) (provider : List Char → ProviderOutcome)
    (claim : List Char) :
    (verifyBuckets api provider claim).1 =
      (search api (provider (('"' :: claim) ++ "\" fact check".data))).filter
          isFactCheckSource ++
        (search api (provider (claim ++ " true or false".data))).filter
          isFactCheckSource := by
  unfold verifyBuckets verifyQueries
  simp [routeResults_fst]

theorem search_subset_parse (api : String) (o : ProviderOutcome) (r : SearchItem)
    (h : r ∈ search api o) :
    ∃ d, o = .response 200 d ∧ r ∈ parse_results d := by
  rcases o with ⟨status, data⟩ | _
  · by_cases hk : api = ""
    · simp [search, hk] at h
    · by_cases hs : status = 200
      · subst hs
        exact ⟨data, rfl, by simpa [search, hk] using h⟩
      · simp [search, hk, hs] at h
  · simp [search] at h

theorem isFactCheckSource_answer_box (ab : AnswerBox) :
    isFactCheckSource (mkAnswerBoxResult ab) = false := rfl

theorem isFactCheckSource_knowledge_graph (kg : KnowledgeGraphBox) :
    isFactCheckSource (mkKnowledgeGraphResult kg) = false := rfl

theorem parse_results_flags (d : SerperData) (r : SearchItem)
    (hm : r ∈ parse_results d) (hfc : isFactCheckSource r = true) :
    r.is_answer_box = false ∧ r.is_knowledge_graph = false := by
  have horg : r ∈ (d.organic.take 5).map mkOrganicResult →
      r.is_answer_box = false ∧ r.is_knowledge_graph = false := by
    intro hx
    rw [List.mem_map] at hx
    obtain ⟨i, _, rfl⟩ := hx
    exact ⟨rfl, rfl⟩
  unfold parse_results at hm
  rcases hAB : d.answerBox with _ | ab <;> rcases hKG : d.knowledgeGraph with _ | kg <;>
      rw [hAB, hKG] at hm <;> dsimp only at hm
  · exact horg hm
  · rcases List.mem_cons.mp hm with rfl | hm2
    · exact absurd hfc (by simp [isFactCheckSource_knowledge_graph])
    · exact horg hm2
  · rcases List.mem_cons.mp hm with rfl | hm2
    · exact absurd hfc (by simp [isFactCheckSource_answer_box])
    · exact horg hm2
  · rcases List.mem_cons.mp hm with rfl | hm2
    · exact absurd hfc (by simp [isFactCheckSource_answer_box])
    · rcases List.mem_cons.mp hm2 with rfl | hm3
      · exact absurd hfc (by simp [isFactCheckSource_knowledge_graph])
      · exact horg hm3

/-- Claim C1: for every narrative containing at least one Tier-1 trigger
phrase (case-insensitively), `_extract_reliability` returns
`(needs_verification, 0.70)`, regardless of any lower-tier triggers the
narrative also contains — the Tier-1 check runs first and wins. -/
theorem C1_tier1_precedence (a : List Char)
    (h : containsAny (pyLower a) speculative_phrases = true) :
    extract_reliability a = ("needs_verification", 0.70) := by
  unfold extract_reliability
  simp [h]

theorem C1_tier1_precedence_witness :
    containsAny (pyLower "This is speculative and fake news".data)
        speculative_phrases = true ∧
      extract_reliability "This is speculative and fake news".data =
        ("needs_verification", 0.70) :=
  ⟨by decide, C1_tier1_precedence _ (by decide)⟩

/-- Claim C2: every Verdict assembled by `_parse_analysis` has a label among
the five enumerated values, a confidence in [0, 1], at most 5 reasons and
4 tips, and reasons and tips are never empty: when extraction yields
nothing, the fixed literal default lists are substituted. -/
theorem C2_verdict_invariants (content analysis search_context : List Char) :
    (parse_analysis content analysis search_context).label ∈ reliability_labels ∧
    0 ≤ (parse_analysis content analysis search_context).confidence ∧
    (parse_analysis content analysis search_context).confidence ≤ 1 ∧
    (parse_analysis content analysis search_context).reasons.length ≤ 5 ∧
    (parse_analysis content analysis search_context).tips.length ≤ 4 ∧
    (parse_analysis content analysis search_context).reasons ≠ [] ∧
    (parse_analysis content analysis search_context).tips ≠ [] ∧
    (extract_reasons analysis = [] →
      (parse_analysis content analysis search_context).reasons =
        default_reasons.map String.data) ∧
    (tipsLoop (splitLines analysis) false [] = [] →
      (parse_analysis content analysis search_context).tips =
        default_tips.map String.data) := by
  have hlc := extract_reliability_cases analysis
  simp only [List.mem_cons, List.not_mem_nil, or_false] at hlc
  have hlabel : (extract_reliability analysis).1 ∈ reliability_labels ∧
      0 ≤ (extract_reliability analysis).2 ∧ (extract_reliability analysis).2 ≤ 1 := by
    rcases hlc with h|h|h|h|h|h|h <;> rw [h] <;>
      exact ⟨by decide, by norm_num, by norm_num⟩
  refine ⟨?_, ?_, ?_, ?_, ?_, ?_, ?_, ?_, ?_⟩
  · rw [parse_analysis_label]; exact hlabel.1
  · rw [parse_analysis_confidence]; exact hlabel.2.1
  · rw [parse_analysis_confidence]; exact hlabel.2.2
  · rw [parse_analysis_reasons]
    split
    · exact extract_reasons_length analysis
    · simp [default_reasons]
  · rw [parse_analysis_tips]
    split
    · exact extract_tips_length analysis
    · simp [parse_default_tips]
  · rw [parse_analysis_reasons]
    split
    · next h => simpa using h
    · simp [default_reasons]
  · rw [parse_analysis_tips]
    split
    · next h => simpa using h
    · simp [parse_default_tips]
  · intro h
    rw [parse_analysis_reasons]
    rw [h]
    rfl
  · intro h
    have ht : extract_tips analysis = default_tips.map String.data := by
      unfold extract_tips
      rw [h]
      rfl
    rw [parse_analysis_tips, ht]
    rfl

theorem C2_verdict_invariants_witness :
    extract_reasons "no sections here".data = [] ∧
    (parse_analysis "no sections here".data "no sections here".data []).reasons =
      default_reasons.map String.data ∧
    tipsLoop (splitLines "no sections here".data) false [] = [] ∧
    (parse_analysis "no sections here".data "no sections here".data []).tips =
      default_tips.map String.data :=
  ⟨by decide,
   (C2_verdict_invariants "no sections here".data "no sections here".data
      []).2.2.2.2.2.2.2.1 (by decide),
   by decide,
   (C2_verdict_invariants "no sections here".data "no sections here".data
      []).2.2.2.2.2.2.2.2 (by decide)⟩

/-- Claim C6: on the empty narrative no trigger matches, so the classifier
returns the default tier `(needs_verification, 0.50)`, and the assembled
Verdict's reasons and tips equal their fixed literal default lists. -/
theorem C6_empty_narrative :
    extract_reliability "".data = ("needs_verification", 0.50) ∧
    (parse_analysis "".data "".data "".data).label = "needs_verification" ∧
    (parse_analysis "".data "".data "".data).confidence = 0.50 ∧
    (parse_analysis "".data "".data "".data).reasons =
      default_reasons.map String.data ∧
    (parse_analysis "".data "".data "".data).tips =
      default_tips.map String.data :=
  ⟨rfl, rfl, rfl, rfl, rfl⟩

/-- Claim C7: the Verdict's content preview is the content itself when it has
at most 300 characters, and otherwise its first 300 characters followed by
"..."; in every case the preview has at most 303 characters. -/
theorem C7_content_preview (content analysis search_context : List Char) :
    (parse_analysis content analysis search_context).content_preview.length ≤ 303 ∧
    (content.length ≤ 300 →
      (parse_analysis content analysis search_context).content_preview = content) ∧
    (300 < content.length →
      (parse_analysis content analysis search_context).content_preview =
        content.take 300 ++ "...".data) := by
  rw [parse_analysis_preview]
  refine ⟨?_, ?_, ?_⟩
  · split
    · have h3 : ("...".data).length = 3 := rfl
      rw [List.length_append, List.length_take, h3]
      omega
    · omega
  · intro h
    rw [if_neg (by omega)]
  · intro h
    rw [if_pos (by omega)]

theorem C7_content_preview_witness :
    (300 < (List.replicate 301 'a').length ∧
      (parse_analysis (List.replicate 301 'a') [] []).content_preview =
        (List.replicate 301 'a').take 300 ++ "...".data) ∧
    ("short".data.length ≤ 300 ∧
      (parse_analysis "short".data [] []).content_preview = "short".data) :=
  ⟨⟨by rw [List.length_replicate]; omega,
    (C7_content_preview (List.replicate 301 'a') [] []).2.2
      (by rw [List.length_replicate]; omega)⟩,
   ⟨by decide, (C7_content_preview "short".data [] []).2.1 (by decide)⟩⟩

/-- Claim C10: the classifier never produces the label "unknown": its label is
always one of the four labels it can actually emit, and its confidence is one
of the six constants 0.50, 0.55, 0.65, 0.70, 0.75, 0.85. -/
theorem C10_label_confidence_sets (a : List Char) :
    (extract_reliability a).1 ≠ "unknown" ∧
    (extract_reliability a).1 ∈
      ["needs_verification", "potentially_false", "doubtful", "reliable"] ∧
    (extract_reliability a).2 ∈
      ([0.50, 0.55, 0.65, 0.70, 0.75, 0.85] : List ℚ) := by
  have hlc := extract_reliability_cases a
  simp only [List.mem_cons, List.not_mem_nil, or_false] at hlc
  rcases hlc with h|h|h|h|h|h|h <;> rw [h] <;>
    exact ⟨by decide, by decide, by norm_num [List.mem_cons]⟩

/-- Claim C3 counterexample: inside a reasons section, the bullet line
"* Misleading framing here: omits context" starts with the bullet marker `*`
and contains a colon; contrary to the claim, the section-close rule fires on
it (only `-` is exempt in the code), so the following well-formed bullet
"- Another solid bullet item" is not captured. -/
theorem C3_counterexample :
    extract_reasons
        "Reasons:\n* Misleading framing here: omits context\n- Another solid bullet item".data =
      ["Misleading framing here: omits context".data] ∧
    "Another solid bullet item".data ∉
      extract_reasons
        "Reasons:\n* Misleading framing here: omits context\n- Another solid bullet item".data :=
  ⟨by decide, by decide⟩

/-- Claim C3 (amended): while inside a reasons section, a line starting with
`-` never closes the section; a non-empty non-header line that contains a
colon and does not start with `-` (even one starting with the bullet markers
`•`, `*` or `N.`, which is captured first) either ends the scan via the
5-item break or closes the section; and the bullet line
"- Misleading framing: omits context" is captured with the section held open. -/
theorem C3_amended_close_rule (l : List Char) (acc : List (List Char))
    (hd : startsWithChar '-' (pyStrip l) = true) :
    (reasonsLineStep true acc l).1 = true ∧
    (∀ (l2 : List Char) (acc2 : List (List Char)),
      (pyStrip l2).contains ':' = true →
      startsWithChar '-' (pyStrip l2) = false →
      isHeaderLine (pyStrip l2) reason_keywords = false →
      (pyStrip l2).isEmpty = false →
      (reasonsLineStep true acc2 l2).2.2 = true ∨
        (reasonsLineStep true acc2 l2).1 = false) ∧
    extract_reasons "Reasons:\n- Misleading framing: omits context".data =
      ["Misleading framing: omits context".data] := by
  refine ⟨?_, ?_, by decide⟩
  · have hne : (pyStrip l).isEmpty = false := by
      cases hstrip : pyStrip l with
      | nil => rw [hstrip] at hd; exact absurd hd (by decide)
      | cons c cs => rfl
    unfold reasonsLineStep
    dsimp only
    rw [hne, hd]
    by_cases hh : isHeaderLine (pyStrip l) reason_keywords = true
    · simp [hh]
    · simp only [Bool.not_eq_true] at hh
      simp only [hh, Bool.false_eq_true, if_false, Bool.not_true, Bool.and_false]
      split_ifs <;> rfl
  · intro l2 acc2 hc hnd hnh hne2
    unfold reasonsLineStep
    dsimp only
    rw [hne2, hnh, hc, hnd]
    simp only [Bool.false_eq_true, if_false, Bool.not_false, Bool.and_true, Bool.true_and]
    split_ifs <;> simp

theorem C3_amended_close_rule_witness :
    (startsWithChar '-' (pyStrip "- keeps the section open".data) = true ∧
      (reasonsLineStep true [] "- keeps the section open".data).1 = true) ∧
    ((pyStrip "New Header Line: closes".data).contains ':' = true ∧
      startsWithChar '-' (pyStrip "New Header Line: closes".data) = false ∧
      isHeaderLine (pyStrip "New Header Line: closes".data) reason_keywords = false ∧
      (pyStrip "New Header Line: closes".data).isEmpty = false ∧
      ((reasonsLineStep true [] "New Header Line: closes".data).2.2 = true ∨
        (reasonsLineStep true [] "New Header Line: closes".data).1 = false)) :=
  ⟨⟨by decide,
    (C3_amended_close_rule "- keeps the section open".data [] (by decide)).1⟩,
   ⟨by decide, by decide, by decide, by decide,
    (C3_amended_close_rule "- keeps the section open".data [] (by decide)).2.1
      "New Header Line: closes".data [] (by decide) (by decide) (by decide)
      (by decide)⟩⟩

/-- Claim C4: when the raw payload carries both synthetic boxes,
`_parse_results` puts the synthesized answer-box result first and the
synthesized knowledge-graph result second, ahead of all organic results; the
allow-list routing test is false on both synthetic results, and no result in
`verify_claim`'s fact-check bucket is ever a synthetic one. -/
theorem C4_synthetic_priority (d : SerperData) (ab : AnswerBox)
    (kg : KnowledgeGraphBox) (hab : d.answerBox = some ab)
    (hkg : d.knowledgeGraph = some kg) :
    parse_results d =
      mkAnswerBoxResult ab :: mkKnowledgeGraphResult kg ::
        (d.organic.take 5).map mkOrganicResult ∧
    isFactCheckSource (mkAnswerBoxResult ab) = false ∧
    isFactCheckSource (mkKnowledgeGraphResult kg) = false ∧
    ∀ (api : String) (provider : List Char → ProviderOutcome)
      (claim : List Char) (r : SearchItem),
      r ∈ (verify_claim api provider claim).fact_check_sources →
        r.is_answer_box = false ∧ r.is_knowledge_graph = false := by
  refine ⟨?_, isFactCheckSource_answer_box ab,
    isFactCheckSource_knowledge_graph kg, ?_⟩
  · unfold parse_results
    rw [hab, hkg]
  · intro api provider claim r hr
    have h1 : r ∈ (verifyBuckets api provider claim).1 := by
      have he : (verify_claim api provider claim).fact_check_sources =
          (verifyBuckets api provider claim).1.take 3 := rfl
      rw [he] at hr
      exact List.take_subset _ _ hr
    rw [verifyBuckets_fst] at h1
    rcases List.mem_append.mp h1 with h2 | h2 <;>
    · rw [List.mem_filter] at h2
      obtain ⟨d2, _, hmem⟩ := search_subset_parse _ _ _ h2.1
      exact parse_results_flags _ _ hmem h2.2

theorem C4_synthetic_priority_witness :
    (⟨[], some ⟨[], [], []⟩, some ⟨none, [], none, none⟩⟩ :
        SerperData).answerBox = some ⟨none, [], none, none⟩ ∧
    parse_results ⟨[], some ⟨[], [], []⟩, some ⟨none, [], none, none⟩⟩ =
      [mkAnswerBoxResult ⟨none, [], none, none⟩,
       mkKnowledgeGraphResult ⟨[], [], []⟩] ∧
    isFactCheckSource (mkAnswerBoxResult ⟨none, [], none, none⟩) = false :=
  ⟨rfl,
   by
    have h := (C4_synthetic_priority
      ⟨[], some ⟨[], [], []⟩, some ⟨none, [], none, none⟩⟩
      ⟨none, [], none, none⟩ ⟨[], [], []⟩ rfl rfl).1
    simpa using h,
   (C4_synthetic_priority
      ⟨[], some ⟨[], [], []⟩, some ⟨none, [], none, none⟩⟩
      ⟨none, [], none, none⟩ ⟨[], [], []⟩ rfl rfl).2.1⟩

theorem verify_claim_fc (api : String) (provider : List Char → ProviderOutcome)
    (claim : List Char) :
    (verify_claim api provider claim).fact_check_sources =
      (verifyBuckets api provider claim).1.take 3 := rfl

theorem verify_claim_other (api : String) (provider : List Char → ProviderOutcome)
    (claim : List Char) :
    (verify_claim api provider claim).other_sources =
      (verifyBuckets api provider claim).2.take 5 := rfl

theorem verify_claim_total (api : String) (provider : List Char → ProviderOutcome)
    (claim : List Char) :
    (verify_claim api provider claim).total_results =
      (verifyBuckets api provider claim).1.length +
        (verifyBuckets api provider claim).2.length := rfl

/-- Claim C5: `verify_claim` caps its output at 3 fact-check and 5 other
sources; `total_results` is the pre-truncation sum, hence always at least the
sum of the capped lengths, with equality exactly when neither bucket was
truncated. -/
theorem C5_caps_and_total (api : String)
    (provider : List Char → ProviderOutcome) (claim : List Char) :
    (verify_claim api provider claim).fact_check_sources.length ≤ 3 ∧
    (verify_claim api provider claim).other_sources.length ≤ 5 ∧
    (verify_claim api provider claim).total_results =
      (verifyBuckets api provider claim).1.length +
        (verifyBuckets api provider claim).2.length ∧
    (verify_claim api provider claim).fact_check_sources.length +
        (verify_claim api provider claim).other_sources.length ≤
      (verify_claim api provider claim).total_results ∧
    ((verify_claim api provider claim).total_results =
        (verify_claim api provider claim).fact_check_sources.length +
          (verify_claim api provider claim).other_sources.length ↔
      (verifyBuckets api provider claim).1.length ≤ 3 ∧
        (verifyBuckets api provider claim).2.length ≤ 5) := by
  rw [verify_claim_fc, verify_claim_other, verify_claim_total]
  generalize (verifyBuckets api provider claim).1 = L1
  generalize (verifyBuckets api provider claim).2 = L2
  simp only [List.length_take]
  refine ⟨?_, ?_, trivial, ?_, ?_⟩ <;> omega

/-- Claim C8: with no search credential every search degrades to an empty
result, `verify_claim` returns the all-empty Evidence, and formatting that
Evidence yields the empty string; a non-success status or a raised provider
exception likewise yields an empty result set instead of an error. -/
theorem C8_degraded_empty (provider : List Char → ProviderOutcome)
    (claim : List Char) (outcome : ProviderOutcome) (api_key : String)
    (status : Nat) (data : SerperData) (hs : status ≠ 200) :
    search "" outcome = [] ∧
    verify_claim "" provider claim = ⟨[], [], 0⟩ ∧
    format_sources_for_analysis ⟨[], [], 0⟩ = [] ∧
    search api_key (.response status data) = [] ∧
    search api_key .exception = [] := by
  refine ⟨rfl, rfl, rfl, ?_, ?_⟩
  · unfold search
    split
    · rfl
    · show (if status = 200 then parse_results data else []) = []
      exact if_neg hs
  · unfold search
    split <;> rfl

theorem C8_degraded_empty_witness :
    (500 : Nat) ≠ 200 ∧
    (search "" .exception = [] ∧
      verify_claim "" (fun _ => .exception) "some claim".data = ⟨[], [], 0⟩ ∧
      format_sources_for_analysis ⟨[], [], 0⟩ = [] ∧
      search "key" (.response 500 ⟨[], none, none⟩) = [] ∧
      search "key" .exception = []) :=
  ⟨by decide,
   C8_degraded_empty (fun _ => .exception) "some claim".data .exception "key"
     500 ⟨[], none, none⟩ (by decide)⟩

/-- Claim C9: when the generative-AI call fails, the pipeline substitutes the
fixed fallback narrative (image variant ending in "manually.") and feeds it
through classification and extraction exactly like a model-produced
narrative, instead of failing the request. -/
theorem C9_gemini_fallback (err : List Char) (api_key : String)
    (provider : List Char → ProviderOutcome) (content : List Char) :
    analyze_text_with_sources (.failure err) =
      "Analysis could not be completed: ".data ++ err ++
        ". Please verify the content manually through trusted sources.".data ∧
    analyze_text api_key provider (.failure err) content =
      analyze_text api_key provider
        (.text ("Analysis could not be completed: ".data ++ err ++
          ". Please verify the content manually through trusted sources.".data))
        content ∧
    ∃ pre, analyze_image_gemini (.failure err) = pre ++ "manually.".data := by
  refine ⟨rfl, rfl,
    ⟨"Image analysis could not be completed: ".data ++ err ++
      ". Please verify the image ".data, ?_⟩⟩
  show "Image analysis could not be completed: ".data ++ err ++
      ". Please verify the image manually.".data = _
  have h : ". Please verify the image manually.".data =
      ". Please verify the image ".data ++ "manually.".data := by decide
  rw [h, ← List.append_assoc]
